import Mathlib

/-!
Verification of the objectfilter-camera client script (src/client.py).

The script connects to a remote Viam machine, prints the machine's resource
names, resolves a camera component named "objectfilter", sends a single
`do_command` payload `{"vision-service": "<-VISION SERVICE NAME->"}`, prints
the result, and closes the connection.

The development embeds the script at two levels:

1. The surface syntax of the `with_api_key` call (lines 10-13 of the source),
   whose two keyword arguments are not separated by a comma, is modelled by a
   token list and the Python call-argument grammar restricted to the token
   kinds that occur there.

2. The control flow of `main` (lines 16-29) is modelled as a trace-producing
   function over an oracle that fixes the outcome of each fallible SDK call
   (`RobotClient.at_address`, `Camera.from_robot`, `Camera.do_command`).
   The trace records, in order, the observable operations the script performs.

Vendor-SDK behaviour that the repository only calls but does not contain
(configuration validation, resource resolution, session close semantics) is
modelled from the specification; those definitions carry a
`Modelled from the spec:` doc comment.
-/

namespace ObjectFilter

/-- Typed failures of the remote-client contract, each carrying the
remote- or SDK-supplied message. The taxonomy follows the specification's
error-handling design. -/
inductive VErr where
  | connectionError (msg : String)
  | authError (msg : String)
  | networkError (msg : String)
  | notConnected (msg : String)
  | resourceNotFound (msg : String)
  | kindMismatch (msg : String)
  | invalidPayload (msg : String)
  | remoteExecutionError (msg : String)
  | transportError (msg : String)
deriving DecidableEq

/-- State of a connected robot as far as the script observes it: the
enumeration of resource names the machine exposes
(`robot.resource_names` in the source). -/
structure RobotState where
  resourceNames : List String
deriving DecidableEq

/-- Outcomes of the three fallible SDK calls that `main` performs, fixed up
front so that every control path of `main` corresponds to one oracle value:
`connect` is the result of `RobotClient.at_address` inside `connect()`,
`fromRobot` the result of `Camera.from_robot(robot, "objectfilter")`, and
`doCommand` the structured mapping returned by `do_command` (or its typed
failure). -/
structure Oracle where
  connect : Except VErr RobotState
  fromRobot : Except VErr Unit
  doCommand : Except VErr (List (String × String))

/-- Observable operations of one execution of `main`, in program order.
`stdout` and `stdoutNames` are `print` calls, `resolveCall` is
`Camera.from_robot` (the `Camera` class fixes the expected kind `"camera"`),
`invokeCall` is `do_command` with its payload, `report` is the
`Do_Command result:` print of the structured result, and `closeCall` is
`robot.close()`. -/
inductive Event where
  | connectOk
  | stdout (s : String)
  | stdoutNames (names : List String)
  | resolveCall (name : String) (kind : String)
  | invokeCall (payload : List (String × String))
  | report (result : List (String × String))
  | closeCall
deriving DecidableEq

/-- Command payload built on line 25 of the source: the value under
`"vision-service"` is the literal placeholder string, hardcoded in the
source text. -/
def visionServicePayload : List (String × String) :=
  [("vision-service", "<-VISION SERVICE NAME->")]

/-- Trace semantics of `main` (src/client.py lines 16-29): each fallible call
takes its outcome from the oracle; an exception aborts the remaining
statements and propagates, there being no try/finally in the source. Returns
the emitted event trace together with the propagated failure, if any. -/
def mainRun (o : Oracle) : List Event × Option VErr :=
  match o.connect with
  | Except.error e => ([], some e)
  | Except.ok robot =>
    match o.fromRobot with
    | Except.error e =>
      ([Event.connectOk, Event.stdout "Resources:",
        Event.stdoutNames robot.resourceNames,
        Event.resolveCall "objectfilter" "camera"], some e)
    | Except.ok _ =>
      match o.doCommand with
      | Except.error e =>
        ([Event.connectOk, Event.stdout "Resources:",
          Event.stdoutNames robot.resourceNames,
          Event.resolveCall "objectfilter" "camera",
          Event.invokeCall visionServicePayload], some e)
      | Except.ok ret =>
        ([Event.connectOk, Event.stdout "Resources:",
          Event.stdoutNames robot.resourceNames,
          Event.resolveCall "objectfilter" "camera",
          Event.invokeCall visionServicePayload,
          Event.report ret, Event.closeCall], none)

/-- Semantics of the `__main__` guard (lines 31-32): `asyncio.run(main())` is
invoked with no use of `sys.argv`, so the command-line arguments do not flow
into the execution at all. -/
def programRun (_argv : List String) (o : Oracle) : List Event × Option VErr :=
  mainRun o

/-- Tags of the five contract operations, used to state ordering properties
independently of the data each event carries. -/
inductive OpTag where
  | connect
  | resolve
  | invoke
  | report
  | close
deriving DecidableEq

/-- Tag of an event, `none` for the auxiliary prints. -/
def tagOf : Event → Option OpTag
  | Event.connectOk => some OpTag.connect
  | Event.resolveCall _ _ => some OpTag.resolve
  | Event.invokeCall _ => some OpTag.invoke
  | Event.report _ => some OpTag.report
  | Event.closeCall => some OpTag.close
  | Event.stdout _ => none
  | Event.stdoutNames _ => none

/-- Projection of a trace to its contract-operation tags. -/
def opTrace (es : List Event) : List OpTag :=
  es.filterMap tagOf

/-- Canonical operation order of a fully successful execution. -/
def canonicalOrder : List OpTag :=
  [OpTag.connect, OpTag.resolve, OpTag.invoke, OpTag.report, OpTag.close]

/-- Boolean test that the first list is an initial segment of the second. -/
def isInitialSegOf : List OpTag → List OpTag → Bool
  | [], _ => true
  | _ :: _, [] => false
  | a :: as, b :: bs => decide (a = b) && isInitialSegOf as bs

/-- Payloads sent by `do_command` calls in a trace. -/
def sentPayloads (es : List Event) : List (List (String × String)) :=
  es.filterMap fun e =>
    match e with
    | Event.invokeCall p => some p
    | _ => none

/-- Concrete robot used in witnesses. -/
def robotA : RobotState := ⟨["objectfilter", "cam2"]⟩

/-- Concrete successful command result used in witnesses. -/
def resultA : List (String × String) := [("status", "applied")]

/-- Oracle on which every SDK call succeeds. -/
def oracleAllOk : Oracle := ⟨Except.ok robotA, Except.ok (), Except.ok resultA⟩

/-- Oracle on which `do_command` raises a transient transport failure. -/
def oracleInvokeFails : Oracle :=
  ⟨Except.ok robotA, Except.ok (), Except.error (VErr.transportError "network interrupted")⟩

/-- Oracle on which `RobotClient.at_address` raises a network failure. -/
def oracleConnectFails : Oracle :=
  ⟨Except.error (VErr.networkError "unreachable"), Except.ok (), Except.ok resultA⟩

/-- Name of the error kind, as it heads the line the Python interpreter
writes to standard error for an uncaught exception. -/
def errKindName : VErr → String
  | VErr.connectionError _ => "ConnectionError"
  | VErr.authError _ => "AuthError"
  | VErr.networkError _ => "NetworkError"
  | VErr.notConnected _ => "NotConnected"
  | VErr.resourceNotFound _ => "ResourceNotFound"
  | VErr.kindMismatch _ => "KindMismatch"
  | VErr.invalidPayload _ => "InvalidPayload"
  | VErr.remoteExecutionError _ => "RemoteExecutionError"
  | VErr.transportError _ => "TransportError"

/-- Message carried by a typed failure. -/
def errMessage : VErr → String
  | VErr.connectionError m => m
  | VErr.authError m => m
  | VErr.networkError m => m
  | VErr.notConnected m => m
  | VErr.resourceNotFound m => m
  | VErr.kindMismatch m => m
  | VErr.invalidPayload m => m
  | VErr.remoteExecutionError m => m
  | VErr.transportError m => m

/-- Final line of the traceback the interpreter writes to standard error for
an uncaught exception: the error kind followed by its message. -/
def errLine (e : VErr) : String :=
  errKindName e ++ ": " ++ errMessage e

/-- Outcome of one run of the process: the events written to standard output
in order, the lines written to standard error, and the exit code. -/
structure ProcOutcome where
  stdoutEvents : List Event
  stderrLines : List String
  exitCode : Nat
deriving DecidableEq

/-- Process-level semantics of the script: `asyncio.run(main())` under the
CPython runtime. The source installs no exception handler, so a failure
propagating out of `main` is printed by the default excepthook as a traceback
ending in the error kind and message on standard error, and the process exits
with code 1; on normal return the process exits with code 0 and nothing is
written to standard error. -/
def processRun (o : Oracle) : ProcOutcome :=
  let t := (mainRun o).1
  let outs := t.filter fun e =>
    match e with
    | Event.stdout _ => true
    | Event.stdoutNames _ => true
    | Event.report _ => true
    | _ => false
  match (mainRun o).2 with
  | none => ⟨outs, [], 0⟩
  | some e => ⟨outs, [errLine e], 1⟩

/-! ### Surface syntax of the `with_api_key` call (lines 10-13)

The argument list of `RobotClient.Options.with_api_key` spans lines 11-12 of
the source. Inside parentheses the Python tokenizer suppresses logical
newlines, so the token stream of that argument list is exactly six tokens:
`api_key` `=` `'<API-KEY>'` `api_key_id` `=` `'<API-KEY-ID>'`, with no comma
between the third and the fourth. -/

/-- Tokens that occur in the argument list on lines 11-12 of the source. -/
inductive Tok where
  | name (s : String)
  | eq
  | str (s : String)
  | comma
deriving DecidableEq

/-- Token stream of the argument list of the `with_api_key` call, transcribed
from src/client.py lines 11-12. -/
def withApiKeyArgToks : List Tok :=
  [Tok.name "api_key", Tok.eq, Tok.str "<API-KEY>",
   Tok.name "api_key_id", Tok.eq, Tok.str "<API-KEY-ID>"]

/-- Acceptance of the remainder of a keyword-argument list after one complete
keyword argument: Python's call grammar requires each further argument to be
introduced by a comma. -/
def acceptsKwargTail : List Tok → Bool
  | [] => true
  | Tok.comma :: Tok.name _ :: Tok.eq :: Tok.str _ :: rest => acceptsKwargTail rest
  | _ => false

/-- Acceptance of a non-empty keyword-argument list `NAME '=' STRING
(',' NAME '=' STRING)*`, the fragment of Python's call-argument grammar that
covers the token kinds occurring on lines 11-12. -/
def acceptsKwargList : List Tok → Bool
  | Tok.name _ :: Tok.eq :: Tok.str _ :: rest => acceptsKwargTail rest
  | _ => false

/-- Result of compiling the module: Python compiles the whole file to
bytecode before executing any statement, so a rejected token stream raises
SyntaxError and nothing in the module ever runs. -/
inductive LoadResult where
  | loaded
  | syntaxError
deriving DecidableEq

/-- Load step of the interpreter on src/client.py: the module loads only if
the `with_api_key` argument list parses. -/
def pythonModuleLoad : LoadResult :=
  if acceptsKwargList withApiKeyArgToks then LoadResult.loaded else LoadResult.syntaxError

/-- Whole-program behaviour including the load step: the event trace actually
produced, together with whether the module body was reached. -/
def loadAndRun (o : Oracle) : List Event × Bool :=
  match pythonModuleLoad with
  | LoadResult.loaded => ((mainRun o).1, true)
  | LoadResult.syntaxError => ([], false)

/-! ### Vendor-SDK contract, modelled from the specification

The configuration validation, resolution and session-close semantics live in
the vendor SDK, which the repository calls but does not contain. The
definitions below model those contracts from the specification. -/

/-- Failure of configuration construction. -/
inductive ConfigError where
  | invalidConfig
deriving DecidableEq

/-- Connection target and credential material. -/
structure ConnectionConfig where
  address : String
  apiKey : String
  apiKeyId : String
deriving DecidableEq

/-- Modelled from the spec: construction of a `ConnectionConfig` (section
4.1), absent from src/ because it lives in the vendor SDK. Construction
validates that address, apiKey and apiKeyId are non-empty and that the
address is a well-formed locator (the locator grammar itself is
SDK-defined, so it is a parameter); it fails with `InvalidConfig` otherwise. -/
def mkConnectionConfig (wellFormedLocator : String → Bool)
    (address apiKey apiKeyId : String) : Except ConfigError ConnectionConfig :=
  if address == "" || apiKey == "" || apiKeyId == "" || !wellFormedLocator address then
    Except.error ConfigError.invalidConfig
  else
    Except.ok ⟨address, apiKey, apiKeyId⟩

/-- Whether a connection is attempted when configuring and then connecting:
`connect` consumes a constructed `ConnectionConfig`, so a failed construction
leaves nothing to connect with and no connection is attempted. -/
def connectAttempted (wellFormedLocator : String → Bool)
    (address apiKey apiKeyId : String) : Bool :=
  match mkConnectionConfig wellFormedLocator address apiKey apiKeyId with
  | Except.error _ => false
  | Except.ok _ => true

/-- Opaque reference to a named remote resource together with its kind tag. -/
structure ResourceHandle where
  name : String
  kind : String
deriving DecidableEq

/-- Failures of the session operations. -/
inductive SdkError where
  | resourceNotFound
  | kindMismatch
  | notConnected
deriving DecidableEq

/-- States of a client produced by a successful `connect`: `opened` with the
resources the remote machine exposes, or `closed` after `close`. -/
inductive ClientState where
  | opened (resources : List ResourceHandle)
  | closed
deriving DecidableEq

/-- Lookup part of `resolve`: find the resource by name, then check the
expected kind when one is given. -/
def resolveLookup (rs : List ResourceHandle) (name : String)
    (expectedKind : Option String) : Except SdkError ResourceHandle :=
  match rs.find? (fun r => r.name == name) with
  | none => Except.error SdkError.resourceNotFound
  | some r =>
    match expectedKind with
    | none => Except.ok r
    | some k => if r.kind == k then Except.ok r else Except.error SdkError.kindMismatch

/-- Modelled from the spec: `resolve` (section 4.2), absent from src/ because
it lives in the vendor SDK behind `Camera.from_robot`. It looks a resource up
by name, fails with `ResourceNotFound` when no resource with that name
exists, fails with `KindMismatch` when an expected kind is given and does not
match, fails with `NotConnected` on a closed client, and has no effect on the
session state besides the lookup. -/
def resolve (s : ClientState) (name : String) (expectedKind : Option String) :
    Except SdkError ResourceHandle × ClientState :=
  match s with
  | ClientState.closed => (Except.error SdkError.notConnected, ClientState.closed)
  | ClientState.opened rs => (resolveLookup rs name expectedKind, ClientState.opened rs)

/-- Modelled from the spec: `close` (section 4.2), absent from src/ because it
lives in the vendor SDK behind `robot.close()`. Closing releases the session;
closing an already closed client succeeds and is a no-op. -/
def close : ClientState → Except SdkError Unit × ClientState
  | ClientState.opened _ => (Except.ok (), ClientState.closed)
  | ClientState.closed => (Except.ok (), ClientState.closed)

/-- Modelled from the spec: `listResources` (section 4.2); valid only on an
open client, failing with `NotConnected` otherwise. -/
def listResources : ClientState → Except SdkError (List ResourceHandle) × ClientState
  | ClientState.closed => (Except.error SdkError.notConnected, ClientState.closed)
  | ClientState.opened rs => (Except.ok rs, ClientState.opened rs)

/-- Modelled from the spec: command invocation on a session (sections 4.2 and
4.3); on an open client the round trip has the given outcome, on a closed
client it fails with `NotConnected`. -/
def invoke (outcome : Except SdkError (List (String × String))) :
    ClientState → Except SdkError (List (String × String)) × ClientState
  | ClientState.closed => (Except.error SdkError.notConnected, ClientState.closed)
  | ClientState.opened rs => (outcome, ClientState.opened rs)

/-- Iterated `close`, keeping only the resulting state. -/
def closeIter : Nat → ClientState → ClientState
  | 0, s => s
  | n + 1, s => closeIter n (close s).2

/-- Resources of the demonstration session used in witnesses. -/
def demoResources : List ResourceHandle := [⟨"objectfilter", "camera"⟩]

/-! ## Claims -/

/-- C2: the source file is syntactically invalid — the two keyword arguments
of `with_api_key` on lines 11-12 are not separated by a comma, so the
argument list is rejected by Python's call grammar, loading the module raises
a syntax error, and for every oracle the program performs no connect,
resolve, invoke or close operation: its event trace is empty. -/
theorem module_syntax_error_blocks_execution :
    acceptsKwargList withApiKeyArgToks = false ∧
    pythonModuleLoad = LoadResult.syntaxError ∧
    ∀ o : Oracle, loadAndRun o = ([], false) :=
  ⟨rfl, rfl, fun _ => rfl⟩

/-- Counterexample to C1 as stated: on the execution where `do_command`
raises a transient `TransportError`, the typed failure propagates out of
`main`, yet `close` was never invoked — line 29 of the source is only reached
on the all-success path, there being no try/finally. -/
theorem close_skipped_on_invoke_failure :
    (mainRun oracleInvokeFails).2 = some (VErr.transportError "network interrupted") ∧
    Event.closeCall ∉ (mainRun oracleInvokeFails).1 := by
  exact ⟨rfl, by decide⟩

/-- C1 (amended): `close` is invoked exactly on executions where every step
succeeds; on an execution where connect, resolve or invoke raises, the typed
failure propagates to the caller without `close` having been performed. -/
theorem close_only_on_success (o : Oracle) :
    ((mainRun o).2 = none → Event.closeCall ∈ (mainRun o).1) ∧
    ∀ e, (mainRun o).2 = some e → Event.closeCall ∉ (mainRun o).1 := by
  obtain ⟨c, f, d⟩ := o
  cases c <;> cases f <;> cases d <;> simp [mainRun, visionServicePayload]

/-- Witness for the amended C1: on the all-success oracle `close` happens,
and on the failed-connect oracle it does not. -/
theorem close_only_on_success_witness :
    Event.closeCall ∈ (mainRun oracleAllOk).1 ∧
    Event.closeCall ∉ (mainRun oracleConnectFails).1 :=
  ⟨(close_only_on_success oracleAllOk).1 rfl,
   (close_only_on_success oracleConnectFails).2 (VErr.networkError "unreachable") rfl⟩

/-- Counterexample to C3 as stated: invoked with the positional argument
"detector-1", the program still sends the hardcoded placeholder payload — the
value under "vision-service" is a fixed constant, not the argument. -/
theorem payload_ignores_cli_argument :
    sentPayloads (programRun ["detector-1"] oracleAllOk).1 = [visionServicePayload] ∧
    visionServicePayload ≠ [("vision-service", "detector-1")] := by
  exact ⟨rfl, by decide⟩

/-- C3 (amended): the value placed in the command payload under the key
"vision-service" is the fixed literal `"<-VISION SERVICE NAME->"` hardcoded
on line 25 of the source, independent of the command-line arguments, which
the program never reads. -/
theorem payload_is_hardcoded_constant (argv : List String) (o : Oracle)
    (p : List (String × String)) (h : Event.invokeCall p ∈ (programRun argv o).1) :
    p = visionServicePayload := by
  obtain ⟨c, f, d⟩ := o
  cases c <;> cases f <;> cases d <;> simp_all [programRun, mainRun]

/-- Witness for the amended C3: the payload sent on the all-success oracle is
the hardcoded placeholder mapping. -/
theorem payload_is_hardcoded_constant_witness :
    ([("vision-service", "<-VISION SERVICE NAME->")] : List (String × String)) =
      visionServicePayload :=
  payload_is_hardcoded_constant ["detector-2"] oracleAllOk
    [("vision-service", "<-VISION SERVICE NAME->")] (by decide)

/-- C4: the contract operations of every execution of `main` occur in the
order connect, resolve, invoke, report, close — the operation trace is an
initial segment of the canonical order, the whole of it on success — and
every resolve is of the resource named "objectfilter" with expected kind
"camera". In particular resolve never precedes a successful connect and no
close separates resolve from invoke. -/
theorem main_operation_order (o : Oracle) :
    isInitialSegOf (opTrace (mainRun o).1) canonicalOrder = true ∧
    ((mainRun o).2 = none → opTrace (mainRun o).1 = canonicalOrder) ∧
    ∀ n k, Event.resolveCall n k ∈ (mainRun o).1 → n = "objectfilter" ∧ k = "camera" := by
  obtain ⟨c, f, d⟩ := o
  cases c <;> cases f <;> cases d <;>
    refine ⟨by simp [mainRun, opTrace, tagOf, canonicalOrder, isInitialSegOf],
      by simp [mainRun, opTrace, tagOf, canonicalOrder], ?_⟩ <;>
    intro n k h <;> simp [mainRun] at h <;> simp_all

/-- Witness for C4: the all-success execution performs exactly the canonical
operation sequence. -/
theorem main_operation_order_witness :
    opTrace (mainRun oracleAllOk).1 = canonicalOrder :=
  (main_operation_order oracleAllOk).2.1 rfl

/-- C5: construction of a `ConnectionConfig` with an empty address, apiKey or
apiKeyId (or a malformed address) fails with `InvalidConfig`, and no
connection is attempted with such a configuration. -/
theorem invalid_config_rejected (wf : String → Bool) (a k kid : String)
    (h : a = "" ∨ k = "" ∨ kid = "" ∨ wf a = false) :
    mkConnectionConfig wf a k kid = Except.error ConfigError.invalidConfig ∧
    connectAttempted wf a k kid = false := by
  have hcond : (a == "" || k == "" || kid == "" || !wf a) = true := by
    rcases h with h | h | h | h <;> simp [h]
  refine ⟨?_, ?_⟩ <;> simp [mkConnectionConfig, connectAttempted, hcond]

/-- Witness for C5: an empty address is rejected before any connection. -/
theorem invalid_config_rejected_witness :
    mkConnectionConfig (fun _ => true) "" "k" "kid" = Except.error ConfigError.invalidConfig ∧
    connectAttempted (fun _ => true) "" "k" "kid" = false :=
  invalid_config_rejected (fun _ => true) "" "k" "kid" (Or.inl rfl)

/-- C6: on an open session, resolving a name that no resource bears fails
with `ResourceNotFound` and returns no handle; resolving a present resource
against a non-matching expected kind fails with `KindMismatch`; and resolve
leaves the session state unchanged. -/
theorem resolve_failure_modes (rs : List ResourceHandle) (name : String) :
    ((∀ r ∈ rs, r.name ≠ name) → ∀ ek,
      (resolve (ClientState.opened rs) name ek).1 = Except.error SdkError.resourceNotFound) ∧
    (∀ r, rs.find? (fun x => x.name == name) = some r → ∀ k, r.kind ≠ k →
      (resolve (ClientState.opened rs) name (some k)).1 = Except.error SdkError.kindMismatch) ∧
    ∀ ek, (resolve (ClientState.opened rs) name ek).2 = ClientState.opened rs := by
  refine ⟨?_, ?_, fun ek => rfl⟩
  · intro h ek
    have hf : rs.find? (fun r => r.name == name) = none := by
      rw [List.find?_eq_none]
      intro x hx
      simpa using h x hx
    simp [resolve, resolveLookup, hf]
  · intro r hr k hk
    simp [resolve, resolveLookup, hr, hk]

/-- Witness for C6: on the demonstration session, resolving "nonexistent"
fails with `ResourceNotFound` and resolving "objectfilter" with expected kind
"sensor" fails with `KindMismatch`. -/
theorem resolve_failure_modes_witness :
    (resolve (ClientState.opened demoResources) "nonexistent" none).1 =
      Except.error SdkError.resourceNotFound ∧
    (resolve (ClientState.opened demoResources) "objectfilter" (some "sensor")).1 =
      Except.error SdkError.kindMismatch :=
  ⟨(resolve_failure_modes demoResources "nonexistent").1 (by decide) none,
   (resolve_failure_modes demoResources "objectfilter").2.1 ⟨"objectfilter", "camera"⟩
     (by decide) "sensor" (by decide)⟩

/-- C7: an execution on which every step succeeds prints the structured
command result to standard output, writes nothing to standard error and
exits with code 0; an execution on which a step raises a typed failure
writes the error kind and message to standard error and exits non-zero. -/
theorem exit_and_reporting_behavior (o : Oracle) :
    ((mainRun o).2 = none →
      (processRun o).exitCode = 0 ∧ (processRun o).stderrLines = [] ∧
      ∀ ret, o.doCommand = Except.ok ret → Event.report ret ∈ (processRun o).stdoutEvents) ∧
    ∀ e, (mainRun o).2 = some e →
      (processRun o).exitCode ≠ 0 ∧ errLine e ∈ (processRun o).stderrLines := by
  obtain ⟨c, f, d⟩ := o
  cases c <;> cases f <;> cases d <;> simp [mainRun, processRun]

/-- Witness for C7: the all-success run exits 0, and the failed-connect run
puts the error kind and message on standard error. -/
theorem exit_and_reporting_behavior_witness :
    (processRun oracleAllOk).exitCode = 0 ∧
    errLine (VErr.networkError "unreachable") ∈ (processRun oracleConnectFails).stderrLines :=
  ⟨((exit_and_reporting_behavior oracleAllOk).1 rfl).1,
   ((exit_and_reporting_behavior oracleConnectFails).2 (VErr.networkError "unreachable") rfl).2⟩

/-- C8: on every execution, the command invocation `do_command` occurs at
most once — no failure triggers an automatic retry. -/
theorem invoke_at_most_once (o : Oracle) :
    (opTrace (mainRun o).1).count OpTag.invoke ≤ 1 := by
  obtain ⟨c, f, d⟩ := o
  cases c <;> cases f <;> cases d <;> simp [mainRun, opTrace, tagOf]

/-- C9: close is idempotent — on a client closed once, every further close
(any number of iterations) succeeds and leaves the state unchanged — and
after the first close every other operation (listResources, resolve, invoke)
fails with `NotConnected`. -/
theorem close_idempotent (rs : List ResourceHandle) (n : Nat) (name : String)
    (ek : Option String) (outcome : Except SdkError (List (String × String))) :
    (close (ClientState.opened rs)).1 = Except.ok () ∧
    closeIter n (close (ClientState.opened rs)).2 = (close (ClientState.opened rs)).2 ∧
    (close (close (ClientState.opened rs)).2).1 = Except.ok () ∧
    (close (close (ClientState.opened rs)).2).2 = (close (ClientState.opened rs)).2 ∧
    (listResources (close (ClientState.opened rs)).2).1 = Except.error SdkError.notConnected ∧
    (resolve (close (ClientState.opened rs)).2 name ek).1 = Except.error SdkError.notConnected ∧
    (invoke outcome (close (ClientState.opened rs)).2).1 = Except.error SdkError.notConnected := by
  refine ⟨rfl, ?_, rfl, rfl, rfl, rfl, rfl⟩
  show closeIter n ClientState.closed = ClientState.closed
  induction n with
  | zero => rfl
  | succ m ih => simpa [closeIter, close] using ih

/-- C10: on every execution where connect succeeds, the first three
observable events are the successful connect, the literal line "Resources:"
and the enumeration of the session's resource names — both prints therefore
precede any resolve. -/
theorem resources_printed_before_resolve (o : Oracle) (r : RobotState)
    (h : o.connect = Except.ok r) :
    (mainRun o).1.take 3 =
      [Event.connectOk, Event.stdout "Resources:", Event.stdoutNames r.resourceNames] ∧
    ∀ n k, Event.resolveCall n k ∉ (mainRun o).1.take 3 := by
  obtain ⟨c, f, d⟩ := o
  cases c with
  | error e => simp at h
  | ok robot =>
    simp only [Except.ok.injEq] at h
    subst h
    cases f <;> cases d <;> simp [mainRun]

/-- Witness for C10: on the all-success oracle the two prints follow the
successful connect immediately. -/
theorem resources_printed_before_resolve_witness :
    (mainRun oracleAllOk).1.take 3 =
      [Event.connectOk, Event.stdout "Resources:", Event.stdoutNames robotA.resourceNames] :=
  (resources_printed_before_resolve oracleAllOk robotA rfl).1

end ObjectFilter
